import Mathlib

/-!
Shallow embedding of the WhatsApp relay backend (`src/server.js`, with the
`/send-message` variant handler from `src/unnamed/part_001`), together with
proofs about the webhook normalizer, the outbound sender and the history
reader.

Conventions of the embedding:
* A JavaScript value that may be `undefined`/`null` is an `Option`.
* JavaScript string truthiness (`!x`, `x || d`) is modelled by `jsFalsy` and
  `jsOr`: both `undefined` and the empty string are falsy.
* A thrown exception inside the try block of the webhook handler (an access on
  `undefined`, or a failed database query) lands in the `catch`, which logs
  and still answers 200; the embedding returns the store unchanged there.
* The database table is modelled as the list of its rows in insertion order;
  `INSERT .. ON CONFLICT (wamid) DO NOTHING` is `insertOrIgnore`,
  `UPDATE chat_messages SET status = $1 WHERE wamid = $2` is `updateStatus`,
  and the history `SELECT .. WHERE phone_number = $1 ORDER BY timestamp ASC`
  is a filter followed by a sort on the timestamp column with projection to
  the four selected columns.
* The live `/api/send-message` handler reads the undeclared identifier
  `META_ACCESS_TOKEN` while building its request headers, outside its try
  block; the embedding models this as an uncaught reference-error outcome
  that sends no response. Where an external `axios` call is reachable, its
  outcome is an explicit `ApiResult` parameter.
-/

/-- One row of the `chat_messages` table (the queries also use a `status`
column, mutated in place by status and reaction events). `timestamp` is the
insertion instant (`DEFAULT NOW()`), modelled as a natural number. -/
structure Row where
  phone_number : String
  wamid : String
  direction : String
  content : Option String
  status : Option String
  timestamp : Nat
deriving Repr, DecidableEq

/-- The table contents, in insertion order. -/
abbrev Store := List Row

/-- JavaScript truthiness test for an optional string: `undefined` and `""`
are falsy. -/
def jsFalsy : Option String → Bool
  | none => true
  | some s => s = ""

/-- JavaScript `x || d` on an optional string. -/
def jsOr (x : Option String) (d : String) : String :=
  match x with
  | none => d
  | some s => if s = "" then d else s

/-- Embedding of `INSERT INTO chat_messages .. ON CONFLICT (wamid) DO NOTHING`. -/
def insertOrIgnore (s : Store) (r : Row) : Store :=
  if s.any (fun x => x.wamid = r.wamid) then s else s ++ [r]

/-- Embedding of `UPDATE chat_messages SET status = $1 WHERE wamid = $2`. A `NULL`
wamid parameter matches no row. -/
def updateStatus (s : Store) (w : Option String) (st : Option String) : Store :=
  match w with
  | none => s
  | some w => s.map (fun r => if r.wamid = w then { r with status := st } else r)

/-- Number of rows carrying a given wamid. -/
def countWamid (w : String) (s : Store) : Nat :=
  (s.filter (fun r => r.wamid = w)).length

/-- Sub-object `msg.text` of a webhook message. -/
structure TextObj where
  body : Option String
deriving Repr, DecidableEq

/-- Sub-object `msg.image` / `msg.video` (only `caption` is read). -/
structure MediaObj where
  caption : Option String
deriving Repr, DecidableEq

/-- Sub-object `msg.document` (only `filename` is read). -/
structure DocObj where
  filename : Option String
deriving Repr, DecidableEq

/-- Sub-object `msg.reaction`. -/
structure ReactionObj where
  message_id : Option String
  emoji : Option String
deriving Repr, DecidableEq

/-- One entry of `change.messages`. `from` is a Lean keyword, so the
source field `msg.from` is named `msg_from`. -/
structure Msg where
  msg_from : Option String
  id : Option String
  type : Option String
  text : Option TextObj
  image : Option MediaObj
  video : Option MediaObj
  document : Option DocObj
  reaction : Option ReactionObj
deriving Repr, DecidableEq

/-- One entry of `change.statuses`. -/
structure StatusData where
  id : Option String
  status : Option String
deriving Repr, DecidableEq

/-- Shape of `entry[0].changes[0].value`. -/
structure ChangeValue where
  messages : Option (List Msg)
  statuses : Option (List StatusData)
deriving Repr, DecidableEq

/-- One entry of `data.entry[0].changes`. -/
structure Change where
  value : Option ChangeValue
deriving Repr, DecidableEq

/-- One entry of `data.entry`. -/
structure Entry where
  changes : Option (List Change)
deriving Repr, DecidableEq

/-- The webhook request body. -/
structure Envelope where
  entry : Option (List Entry)
deriving Repr, DecidableEq

/-- Accessor `data.entry?.[0]?.changes?.[0]?.value`: each optional-chaining step
yields `undefined` when its subject is absent, as does indexing an empty
array. -/
def envelopeValue (d : Envelope) : Option ChangeValue := do
  let es ← d.entry
  let e ← es.head?
  let cs ← e.changes
  let c ← cs.head?
  c.value

/-- Envelope with a single entry / single change around a given value. -/
def mkEnvelope (cv : ChangeValue) : Envelope :=
  ⟨some [⟨some [⟨some cv⟩]⟩]⟩

/-- The `switch (messageType)` of the webhook handler, for every case other
than `reaction`: the rendered `content`, or `.error ()` when the handler
would throw (an access like `msg.text.body` on an absent sub-object). The
rendered content itself may be `NULL` (`msg.text.body` absent). -/
def renderContent (msg : Msg) : Except Unit (Option String) :=
  match msg.type with
  | some "text" =>
    match msg.text with
    | none => .error ()
    | some t => .ok t.body
  | some "image" =>
    match msg.image with
    | none => .error ()
    | some i => .ok (some (("📷 [Image] " ++ jsOr i.caption "").trim))
  | some "audio" => .ok (some "🎵 [Audio Message]")
  | some "video" =>
    match msg.video with
    | none => .error ()
    | some v => .ok (some (("🎥 [Video] " ++ jsOr v.caption "").trim))
  | some "document" =>
    match msg.document with
    | none => .error ()
    | some d => .ok (some ("📄 [Document] " ++ jsOr d.filename "File"))
  | some "sticker" => .ok (some "😀 [Sticker]")
  | _ => .ok (some "[Unsupported Message Type]")

/-- Handler of `POST /api/forwarded-response` (`src/server.js`). Returns the HTTP status
sent to the caller and the resulting store. `dbFail` makes every database
query fail (rejected promise); the failure is caught, logged and the handler
still acknowledges. `now` is the insertion instant for `DEFAULT NOW()`.

Branch order follows the source: `change.messages` is tested first and
`change.statuses` only in the `else`. An empty `messages` or `statuses`
array is truthy in JavaScript, and indexing it yields `undefined`, so the
subsequent field access throws and is caught. An insert whose
`phone_number` or `wamid` parameter is `undefined` violates the
`NOT NULL` constraints of those columns, so the query fails and is caught. -/
def forwardedResponse (dbFail : Bool) (now : Nat) (data : Envelope) (s : Store) :
    Nat × Store :=
  match envelopeValue data with
  | none => (200, s)
  | some change =>
    match change.messages with
    | some msgs =>
      match msgs.head? with
      | none => (200, s)
      | some msg =>
        if msg.type = some "reaction" then
          match msg.reaction with
          | none => (200, s)
          | some r =>
            if dbFail then (200, s)
            else (200, updateStatus s r.message_id
                         (some ("Reacted with " ++ jsOr r.emoji "👍")))
        else
          match renderContent msg with
          | .error _ => (200, s)
          | .ok content =>
            match msg.msg_from, msg.id with
            | some f, some i =>
              if dbFail then (200, s)
              else (200, insertOrIgnore s ⟨f, i, "incoming", content, some "read", now⟩)
            | _, _ => (200, s)
    | none =>
      match change.statuses with
      | some sts =>
        match sts.head? with
        | none => (200, s)
        | some sd =>
          if dbFail then (200, s)
          else (200, updateStatus s sd.id sd.status)
      | none => (200, s)

/-- Request body of a send-message request (both variants destructure the
same fields; `languageCode` is only used by the `/send-message` variant,
with destructuring default applied when the field is `undefined`). -/
structure SendRequest where
  «to» : Option String
  type : Option String
  messageBody : Option String
  templateName : Option String
  languageCode : Option String
  headerImageUrl : Option String
deriving Repr, DecidableEq

/-- Outcome of the external `axios.post` call: resolution with an HTTP
status and the `messages?.[0]?.id` of the response data, or rejection
carrying `error.response?.data` (outer `none` when there is no response at
all, inner `none` when the response has no usable data) and the error
message. -/
inductive ApiResult where
  | ok (status : Nat) (msgId : Option String)
  | fail (response : Option (Option String)) (message : String)
deriving Repr, DecidableEq

/-- Response body sent to the caller of a send endpoint. -/
inductive Body where
  | error (msg : String)
  | data (msgId : Option String)
  | errRelay (response : Option (Option String)) (message : String)
deriving Repr, DecidableEq

/-- An HTTP response of the `/api/send-message` handler: status, body,
whether the external API was called, and the resulting store. -/
structure SendOut where
  status : Nat
  body : Body
  calledApi : Bool
  store : Store
deriving Repr, DecidableEq

/-- Outcome of the `/api/send-message` handler as the caller sees it:
either an HTTP response, or an uncaught reference error on the named
undeclared identifier. The handler is `async`, so the thrown error rejects
its promise and no response is sent to the caller; the constructor records
whether the external API was called and the resulting store. -/
inductive ApiSendResult where
  | response (out : SendOut)
  | refError (name : String) (calledApi : Bool) (store : Store)
deriving Repr, DecidableEq

/-- True when the handler answered the caller with a 4xx client error. -/
def ApiSendResult.clientError : ApiSendResult → Bool
  | .response out => 400 ≤ out.status && out.status < 500
  | .refError _ _ _ => false

/-- Whether the external API was called. -/
def ApiSendResult.calledApi : ApiSendResult → Bool
  | .response out => out.calledApi
  | .refError _ c _ => c

/-- The store after the handler ran. -/
def ApiSendResult.store : ApiSendResult → Store
  | .response out => out.store
  | .refError _ _ st => st

/-- Handler of `POST /api/send-message` (`src/server.js`, lines 124-159).
Only the presence of `to` and `type` is validated (400 on failure). A
request that passes this check then evaluates the Authorization header
template literal, which reads `META_ACCESS_TOKEN` — an identifier declared
nowhere in the file (line 44 destructures `WHATSAPP_ACCESS_TOKEN`
instead). That line sits outside the try block, so the handler throws an
uncaught reference error before building the payload, before the `axios`
call, before any insert, and before any response is sent. The `api` and
`now` parameters model the call outcome and insertion instant the
unreachable remainder of the handler would have used; they cannot affect
the result. -/
def apiSendMessage (req : SendRequest) (api : ApiResult) (now : Nat) (s : Store) :
    ApiSendResult :=
  if jsFalsy req.«to» || jsFalsy req.type then
    .response ⟨400, .error "Recipient and type are required.", false, s⟩
  else
    .refError "META_ACCESS_TOKEN" false s

/-- Result of the `/send-message` variant handler, which performs no
database write: HTTP status, response body, and whether the external API
was called. -/
structure RouteOut where
  status : Nat
  body : Body
  calledApi : Bool
deriving Repr, DecidableEq

/-- Handler of `POST /send-message` (the variant in `src/unnamed/part_001`):
full validation — `to` and `type` present, `templateName` required for
`template`, `messageBody` required for `text`, any other type rejected —
then the external call; no database write in this variant. -/
def sendMessageRoute (req : SendRequest) (api : ApiResult) : RouteOut :=
  if jsFalsy req.«to» || jsFalsy req.type then
    ⟨400, .error "Recipient phone number (to) and message type are required.", false⟩
  else if req.type = some "template" then
    if jsFalsy req.templateName then
      ⟨400, .error "templateName is required for type \"template\".", false⟩
    else
      match api with
      | .ok _ msgId => ⟨200, .data msgId, true⟩
      | .fail resp m => ⟨500, .errRelay resp m, true⟩
  else if req.type = some "text" then
    if jsFalsy req.messageBody then
      ⟨400, .error "messageBody is required for type \"text\".", false⟩
    else
      match api with
      | .ok _ msgId => ⟨200, .data msgId, true⟩
      | .fail resp m => ⟨500, .errRelay resp m, true⟩
  else
    ⟨400, .error "Invalid message type. Must be \"template\" or \"text\".", false⟩

/-- Ordering `ORDER BY timestamp ASC`, as a relation on rows. -/
def tsLe (a b : Row) : Prop := a.timestamp ≤ b.timestamp

instance : DecidableRel tsLe := fun a b => Nat.decLe a.timestamp b.timestamp

instance : IsTotal Row tsLe := ⟨fun a b => Nat.le_total a.timestamp b.timestamp⟩

instance : IsTrans Row tsLe := ⟨fun _ _ _ h h' => Nat.le_trans h h'⟩

/-- A row of the history result set: the `SELECT` projects exactly
`phone_number, direction, content, timestamp`. -/
structure HistoryRow where
  phone_number : String
  direction : String
  content : Option String
  timestamp : Nat
deriving Repr, DecidableEq

/-- The projection performed by the history `SELECT` column list. -/
def projectRow (r : Row) : HistoryRow :=
  ⟨r.phone_number, r.direction, r.content, r.timestamp⟩

/-- The history query: rows with the given phone number, ordered by
ascending timestamp, projected to the selected columns. -/
def chatHistoryQuery (p : String) (s : Store) : List HistoryRow :=
  (List.insertionSort tsLe (s.filter (fun r => r.phone_number = p))).map projectRow

/-- Handler of `GET /api/history/:phoneNumber` (`src/server.js`): status 200 with the
query result, or — when the database query fails — status 500 with the
generic error body. -/
def historyHandler (dbFail : Bool) (p : String) (s : Store) :
    Nat × Except String (List HistoryRow) :=
  if dbFail then (500, .error "Failed to fetch chat history")
  else (200, .ok (chatHistoryQuery p s))

lemma envelopeValue_mkEnvelope (cv : ChangeValue) :
    envelopeValue (mkEnvelope cv) = some cv := rfl

lemma countWamid_eq_zero_iff (w : String) (s : Store) :
    countWamid w s = 0 ↔ s.any (fun x => x.wamid = w) = false := by
  simp [countWamid, List.length_eq_zero, List.filter_eq_nil_iff, List.any_eq_false]

lemma countWamid_append_single (w : String) (s : Store) (r : Row) (h : r.wamid = w) :
    countWamid w (s ++ [r]) = countWamid w s + 1 := by
  simp [countWamid, List.filter_append, h]

lemma countWamid_insertOrIgnore (s : Store) (r : Row) (w : String) (hw : r.wamid = w) :
    countWamid w (insertOrIgnore s r) =
      if countWamid w s = 0 then 1 else countWamid w s := by
  unfold insertOrIgnore
  subst hw
  by_cases h : s.any (fun x => x.wamid = r.wamid) = true
  · have h0 : ¬ countWamid r.wamid s = 0 := by
      rw [countWamid_eq_zero_iff]
      simp [h]
    simp [h, h0]
  · have h0 : countWamid r.wamid s = 0 := by
      rw [countWamid_eq_zero_iff]
      simpa using h
    simp [h, h0, countWamid_append_single]

lemma forwardedResponse_msg_insert
    (msg : Msg) (rest : List Msg) (sts : Option (List StatusData))
    (s : Store) (now : Nat) (f i : String) (c : Option String)
    (hfrom : msg.msg_from = some f) (hid : msg.id = some i)
    (hty : msg.type ≠ some "reaction") (hrc : renderContent msg = .ok c) :
    forwardedResponse false now (mkEnvelope ⟨some (msg :: rest), sts⟩) s =
      (200, insertOrIgnore s ⟨f, i, "incoming", c, some "read", now⟩) := by
  unfold forwardedResponse
  rw [envelopeValue_mkEnvelope]
  simp [List.head?, hty, hrc, hfrom, hid]

/-- C5: every webhook request to `/api/forwarded-response` — malformed
envelopes, envelopes with missing optional nested fields, and requests
during which every store operation fails included — is answered with
status 200; processing errors are caught, not rethrown to the caller. -/
theorem forwarded_always_acks_200 (dbFail : Bool) (now : Nat) (d : Envelope) (s : Store) :
    (forwardedResponse dbFail now d s).1 = 200 := by
  unfold forwardedResponse
  repeat' split
  all_goals rfl

/-- C1: delivering the same webhook message (same wamid) twice leaves the
store with exactly one row for that wamid: the insert is
insert-or-ignore on the unique `wamid` key, so the second delivery changes
nothing. -/
theorem wamid_insert_idempotent
    (msg : Msg) (rest : List Msg) (sts : Option (List StatusData))
    (s : Store) (n1 n2 : Nat) (f i : String) (c : Option String)
    (hfrom : msg.msg_from = some f) (hid : msg.id = some i)
    (hty : msg.type ≠ some "reaction") (hrc : renderContent msg = .ok c)
    (hs : countWamid i s ≤ 1) :
    countWamid i
      (forwardedResponse false n2 (mkEnvelope ⟨some (msg :: rest), sts⟩)
        (forwardedResponse false n1 (mkEnvelope ⟨some (msg :: rest), sts⟩) s).2).2 = 1 := by
  rw [forwardedResponse_msg_insert msg rest sts s n1 f i c hfrom hid hty hrc]
  rw [forwardedResponse_msg_insert msg rest sts _ n2 f i c hfrom hid hty hrc]
  have h1 := countWamid_insertOrIgnore s ⟨f, i, "incoming", c, some "read", n1⟩ i rfl
  have h2 := countWamid_insertOrIgnore
    (insertOrIgnore s ⟨f, i, "incoming", c, some "read", n1⟩)
    ⟨f, i, "incoming", c, some "read", n2⟩ i rfl
  rw [h2, h1]
  split_ifs <;> omega

/-- Witness for C1 at a concrete text-message delivery into an empty store. -/
theorem wamid_insert_idempotent_witness :
    countWamid "wamid.AAA"
      (forwardedResponse false 1
        (mkEnvelope ⟨some [⟨some "15551234567", some "wamid.AAA", some "text",
          some ⟨some "hello"⟩, none, none, none, none⟩], none⟩)
        (forwardedResponse false 0
          (mkEnvelope ⟨some [⟨some "15551234567", some "wamid.AAA", some "text",
            some ⟨some "hello"⟩, none, none, none, none⟩], none⟩) []).2).2 = 1 :=
  wamid_insert_idempotent _ [] none [] 0 1 "15551234567" "wamid.AAA" (some "hello")
    rfl rfl (by decide) rfl (by decide)

/-- C9: every insert performed by the webhook handler (any non-reaction
message type whose rendering succeeds) creates the row with
`direction = incoming` and `status = read`. -/
theorem inbound_row_incoming_read
    (msg : Msg) (rest : List Msg) (sts : Option (List StatusData))
    (s : Store) (now : Nat) (f i : String) (c : Option String)
    (hfrom : msg.msg_from = some f) (hid : msg.id = some i)
    (hty : msg.type ≠ some "reaction") (hrc : renderContent msg = .ok c)
    (hfresh : countWamid i s = 0) :
    (forwardedResponse false now (mkEnvelope ⟨some (msg :: rest), sts⟩) s).2 =
      s ++ [⟨f, i, "incoming", c, some "read", now⟩] := by
  rw [forwardedResponse_msg_insert msg rest sts s now f i c hfrom hid hty hrc]
  have hany : s.any (fun x => x.wamid = i) = false :=
    (countWamid_eq_zero_iff i s).mp hfresh
  simp [insertOrIgnore, hany]

/-- Witness for C9 at a concrete sticker message into an empty store. -/
theorem inbound_row_incoming_read_witness :
    (forwardedResponse false 3
      (mkEnvelope ⟨some [⟨some "15550001111", some "wamid.STK", some "sticker",
        none, none, none, none, none⟩], none⟩) []).2 =
      [⟨"15550001111", "wamid.STK", "incoming", some "😀 [Sticker]", some "read", 3⟩] :=
  inbound_row_incoming_read _ [] none [] 3 "15550001111" "wamid.STK"
    (some "😀 [Sticker]") rfl rfl (by decide) rfl (by decide)

lemma map_update_id (s : Store) (w : String) (st : Option String)
    (h : ∀ r ∈ s, r.wamid ≠ w) :
    s.map (fun r => if r.wamid = w then { r with status := st } else r) = s := by
  induction s with
  | nil => rfl
  | cons a t ih =>
    have ha : a.wamid ≠ w := h a (by simp)
    simp only [List.map_cons, if_neg ha, List.cons.injEq, true_and]
    exact ih (fun r hr => h r (List.mem_cons_of_mem a hr))

/-- C6: a webhook message of type `reaction` sets the status of the row
whose wamid is the referenced message id of the reaction to
`"Reacted with <emoji>"` — a string containing the emoji — inserts no
row, and is a silent no-op when no row carries that wamid. -/
theorem reaction_updates_status
    (msg : Msg) (rest : List Msg) (sts : Option (List StatusData))
    (s : Store) (now : Nat) (w e : String)
    (hty : msg.type = some "reaction")
    (hr : msg.reaction = some ⟨some w, some e⟩)
    (he : e ≠ "") :
    (forwardedResponse false now (mkEnvelope ⟨some (msg :: rest), sts⟩) s).1 = 200 ∧
    (forwardedResponse false now (mkEnvelope ⟨some (msg :: rest), sts⟩) s).2 =
      s.map (fun r => if r.wamid = w then { r with status := some ("Reacted with " ++ e) } else r) ∧
    (forwardedResponse false now (mkEnvelope ⟨some (msg :: rest), sts⟩) s).2.length = s.length ∧
    ((∀ r ∈ s, r.wamid ≠ w) →
      (forwardedResponse false now (mkEnvelope ⟨some (msg :: rest), sts⟩) s).2 = s) ∧
    ∃ t, "Reacted with " ++ e = t ++ e := by
  have hred : forwardedResponse false now (mkEnvelope ⟨some (msg :: rest), sts⟩) s =
      (200, s.map (fun r =>
        if r.wamid = w then { r with status := some ("Reacted with " ++ e) } else r)) := by
    unfold forwardedResponse
    rw [envelopeValue_mkEnvelope]
    simp [List.head?, hty, hr, updateStatus, jsOr, he]
  refine ⟨by rw [hred], by rw [hred], ?_, ?_, ⟨"Reacted with ", rfl⟩⟩
  · rw [hred]
    simp
  · intro hnone
    rw [hred]
    exact map_update_id s w _ hnone

/-- Witness for C6: a heart reaction to a stored message updates its
status and leaves the store one row long. -/
theorem reaction_updates_status_witness :
    (forwardedResponse false 9
      (mkEnvelope ⟨some [⟨none, none, some "reaction", none, none, none, none,
        some ⟨some "wamid.RCT", some "❤️"⟩⟩], none⟩)
      [⟨"15551234567", "wamid.RCT", "incoming", some "hello", some "read", 0⟩]).2 =
      [⟨"15551234567", "wamid.RCT", "incoming", some "hello", some "Reacted with ❤️", 0⟩] := by
  have h := reaction_updates_status
    ⟨none, none, some "reaction", none, none, none, none,
      some ⟨some "wamid.RCT", some "❤️"⟩⟩ [] none
    [⟨"15551234567", "wamid.RCT", "incoming", some "hello", some "read", 0⟩]
    9 "wamid.RCT" "❤️" rfl rfl (by decide)
  rw [h.2.1]
  rfl

/-- C2 fails on the code: the handler tests `change.messages` first and
`change.statuses` only in the `else`, so an envelope carrying both a
message and a status update inserts the new message and never applies the
status update. Here the claim predicts the `wamid.OLD` row becomes
`delivered` with no insert; the code leaves it `sent` and inserts a second
row. -/
theorem statuses_priority_cex :
    (forwardedResponse false 1
      (mkEnvelope ⟨some [⟨some "15551234567", some "wamid.NEW", some "text",
        some ⟨some "hello"⟩, none, none, none, none⟩],
        some [⟨some "wamid.OLD", some "delivered"⟩]⟩)
      [⟨"15551234567", "wamid.OLD", "outgoing", some "hi", some "sent", 0⟩]).2 =
      [⟨"15551234567", "wamid.OLD", "outgoing", some "hi", some "sent", 0⟩,
       ⟨"15551234567", "wamid.NEW", "incoming", some "hello", some "read", 1⟩] ∧
    some "sent" ≠ some "delivered" := by
  refine ⟨rfl, by decide⟩

/-- C2 amended: for every envelope that contains a `statuses` update and
no `messages` entry, the handler extracts id and status from the first
statuses entry and updates the status of the row whose wamid equals that
id, performing no insert (a `NULL` id matches no row). The `messages`
rules have priority over this rule, not the other way around. -/
theorem statuses_update_when_no_messages
    (sd : StatusData) (rest : List StatusData) (s : Store) (now : Nat) :
    (forwardedResponse false now (mkEnvelope ⟨none, some (sd :: rest)⟩) s).1 = 200 ∧
    (∀ w, sd.id = some w →
      (forwardedResponse false now (mkEnvelope ⟨none, some (sd :: rest)⟩) s).2 =
        s.map (fun r => if r.wamid = w then { r with status := sd.status } else r)) ∧
    (sd.id = none →
      (forwardedResponse false now (mkEnvelope ⟨none, some (sd :: rest)⟩) s).2 = s) ∧
    (forwardedResponse false now (mkEnvelope ⟨none, some (sd :: rest)⟩) s).2.length = s.length := by
  have hred : forwardedResponse false now (mkEnvelope ⟨none, some (sd :: rest)⟩) s =
      (200, updateStatus s sd.id sd.status) := by
    unfold forwardedResponse
    rw [envelopeValue_mkEnvelope]
    simp [List.head?]
  refine ⟨by rw [hred], ?_, ?_, ?_⟩
  · intro w hw
    rw [hred]
    simp [updateStatus, hw]
  · intro hw
    rw [hred]
    simp [updateStatus, hw]
  · rw [hred]
    unfold updateStatus
    cases sd.id <;> simp

/-- Witness for the amended C2: a `delivered` status for a stored outgoing
message updates that row in place. -/
theorem statuses_update_when_no_messages_witness :
    (forwardedResponse false 4
      (mkEnvelope ⟨none, some [⟨some "wamid.ST", some "delivered"⟩]⟩)
      [⟨"15551234567", "wamid.ST", "outgoing", some "yo", some "sent", 2⟩]).2 =
      [⟨"15551234567", "wamid.ST", "outgoing", some "yo", some "delivered", 2⟩] := by
  have h := statuses_update_when_no_messages ⟨some "wamid.ST", some "delivered"⟩ []
    [⟨"15551234567", "wamid.ST", "outgoing", some "yo", some "sent", 2⟩] 4
  rw [h.2.1 "wamid.ST" rfl]
  rfl

/-- C3 fails on the code: the `/api/send-message` handler checks only
that `to` and `type` are present, and none of the three requests is
rejected with a client error. Each passes that check and then throws the
uncaught reference error on the undeclared `META_ACCESS_TOKEN`
(server.js line 129, outside the try block), so the caller receives no
client-error response — in fact no response at all — and the per-type
validation never runs. -/
theorem send_validation_cex :
    apiSendMessage ⟨some "15551234567", some "text", none, none, none, none⟩
      (.ok 200 (some "wamid.CX1")) 5 [] = .refError "META_ACCESS_TOKEN" false [] ∧
    (apiSendMessage ⟨some "15551234567", some "text", none, none, none, none⟩
      (.ok 200 (some "wamid.CX1")) 5 []).clientError = false ∧
    apiSendMessage ⟨some "15551234567", some "template", none, none, none, none⟩
      (.ok 200 (some "wamid.CX2")) 5 [] = .refError "META_ACCESS_TOKEN" false [] ∧
    (apiSendMessage ⟨some "15551234567", some "template", none, none, none, none⟩
      (.ok 200 (some "wamid.CX2")) 5 []).clientError = false ∧
    apiSendMessage ⟨some "15551234567", some "giraffe", none, none, none, none⟩
      (.ok 200 (some "wamid.CX3")) 5 [] = .refError "META_ACCESS_TOKEN" false [] ∧
    (apiSendMessage ⟨some "15551234567", some "giraffe", none, none, none, none⟩
      (.ok 200 (some "wamid.CX3")) 5 []).clientError = false :=
  ⟨rfl, rfl, rfl, rfl, rfl, rfl⟩

/-- C3 amended: the per-type validation lives in the `/send-message`
variant handler (`src/unnamed/part_001`): there a `text` request without
`messageBody`, a `template` request without `templateName`, and a request
whose type is neither `text` nor `template` are all rejected with a 400
client error and no external call. (In `src/server.js`, a request passing
the `to`/`type` presence check instead throws on the undeclared
`META_ACCESS_TOKEN` before any external call.) -/
theorem send_route_validation (req : SendRequest) (api : ApiResult) :
    (req.type = some "text" → jsFalsy req.messageBody = true →
      (sendMessageRoute req api).status = 400 ∧
      (sendMessageRoute req api).calledApi = false) ∧
    (req.type = some "template" → jsFalsy req.templateName = true →
      (sendMessageRoute req api).status = 400 ∧
      (sendMessageRoute req api).calledApi = false) ∧
    (∀ t, req.type = some t → t ≠ "text" → t ≠ "template" →
      (sendMessageRoute req api).status = 400 ∧
      (sendMessageRoute req api).calledApi = false) := by
  by_cases h0 : (jsFalsy req.«to» || jsFalsy req.type) = true
  · refine ⟨?_, ?_, ?_⟩ <;> intros <;> exact by unfold sendMessageRoute; simp [h0]
  · have h0' := h0
    simp only [Bool.or_eq_true, not_or, Bool.not_eq_true] at h0'
    obtain ⟨hta, htb⟩ := h0'
    refine ⟨?_, ?_, ?_⟩
    · intro hty hmb
      have hlit : ¬ ((some "text" : Option String) = some "template") := by decide
      have htx : jsFalsy (some "text") = false := rfl
      unfold sendMessageRoute
      simp [hty, hlit, hmb, hta, htx]
    · intro hty htn
      have htm : jsFalsy (some "template") = false := rfl
      unfold sendMessageRoute
      simp [hty, htn, hta, htm]
    · intro t hty h1 h2
      have hn1 : ¬ ((some t : Option String) = some "text") := by simp [h1]
      have hn2 : ¬ ((some t : Option String) = some "template") := by simp [h2]
      rw [hty] at htb
      unfold sendMessageRoute
      simp [hty, hn1, hn2, hta, htb]

/-- Witness for the amended C3: a text request with no body is rejected
without calling the API. -/
theorem send_route_validation_witness :
    (sendMessageRoute ⟨some "15551234567", some "text", none, none, none, none⟩
      (.ok 200 none)).status = 400 ∧
    (sendMessageRoute ⟨some "15551234567", some "text", none, none, none, none⟩
      (.ok 200 none)).calledApi = false :=
  (send_route_validation _ _).1 rfl rfl

/-- C4 describes the intended success path, but the code never reaches
it: every request that passes the `to`/`type` check throws the uncaught
reference error on the undeclared `META_ACCESS_TOKEN` before the external
call, so no send ever succeeds, no response is echoed, and no row is ever
inserted. Whatever the call outcome and insertion instant would have
been, the handler crashes with the store unchanged and no API call made —
evaluated here at the failing input taken from the worked example of the
spec. -/
theorem outbound_success_unreachable (api : ApiResult) (now : Nat) (s : Store) :
    apiSendMessage ⟨some "15551234567", some "text", some "hi", none, none, none⟩
      api now s = .refError "META_ACCESS_TOKEN" false s ∧
    (apiSendMessage ⟨some "15551234567", some "text", some "hi", none, none, none⟩
      api now s).store = s ∧
    (apiSendMessage ⟨some "15551234567", some "text", some "hi", none, none, none⟩
      api now s).calledApi = false :=
  ⟨rfl, rfl, rfl⟩

/-- C7 describes the catch-block relay, but the code never reaches the
`axios` call: a send whose upstream call was destined to fail instead
throws the uncaught reference error on the undeclared `META_ACCESS_TOKEN`
first (outside the try block), so the 500 relay of the provider error
payload is never produced and the caller receives no response. Only the
no-persistence half of the claim holds, trivially: the store is
unchanged. -/
theorem outbound_failure_relay_unreachable
    (resp : Option (Option String)) (m : String) (now : Nat) (s : Store) :
    apiSendMessage ⟨some "15557654321", some "template", none, some "promo", none, none⟩
      (.fail resp m) now s = .refError "META_ACCESS_TOKEN" false s ∧
    apiSendMessage ⟨some "15557654321", some "template", none, some "promo", none, none⟩
      (.fail resp m) now s ≠
      .response ⟨500, .error (jsOr resp.join "Failed to send message"), true, s⟩ ∧
    (apiSendMessage ⟨some "15557654321", some "template", none, some "promo", none, none⟩
      (.fail resp m) now s).store = s := by
  refine ⟨rfl, ?_, rfl⟩
  intro h
  have h2 : ApiSendResult.refError "META_ACCESS_TOKEN" false s =
      .response ⟨500, .error (jsOr resp.join "Failed to send message"), true, s⟩ := h
  exact ApiSendResult.noConfusion h2

/-- C8: the history read answers 200 with exactly the rows whose
`phone_number` is the requested number (as a permutation of the filtered
store, so the empty result is the ordinary non-error outcome), ordered by
ascending timestamp, and every returned row carries that number. -/
theorem history_filtered_sorted (p : String) (s : Store) :
    (historyHandler false p s).1 = 200 ∧
    (historyHandler false p s).2 = .ok (chatHistoryQuery p s) ∧
    (chatHistoryQuery p s).Perm
      ((s.filter (fun r => r.phone_number = p)).map projectRow) ∧
    List.Pairwise (fun a b => a.timestamp ≤ b.timestamp) (chatHistoryQuery p s) ∧
    (∀ r ∈ chatHistoryQuery p s, r.phone_number = p) := by
  refine ⟨rfl, rfl, ?_, ?_, ?_⟩
  · exact (List.perm_insertionSort tsLe _).map projectRow
  · have hs := List.sorted_insertionSort tsLe (s.filter (fun r => r.phone_number = p))
    exact List.Pairwise.map projectRow (fun a b hab => hab) hs
  · intro r hr
    unfold chatHistoryQuery at hr
    rw [List.mem_map] at hr
    obtain ⟨a, ha, hpr⟩ := hr
    rw [List.mem_insertionSort, List.mem_filter] at ha
    have hpn : a.phone_number = p := by simpa using ha.2
    rw [← hpr]
    simpa [projectRow] using hpn

/-- Witness for C8 on a three-row store with two numbers and out-of-order
timestamps. -/
theorem history_filtered_sorted_witness :
    (historyHandler false "15551234567"
      [⟨"15551234567", "w1", "incoming", some "x", some "read", 5⟩,
       ⟨"15550009999", "w2", "incoming", some "y", some "read", 1⟩,
       ⟨"15551234567", "w3", "outgoing", some "z", some "sent", 2⟩]).1 = 200 ∧
    List.Pairwise (fun a b => a.timestamp ≤ b.timestamp)
      (chatHistoryQuery "15551234567"
        [⟨"15551234567", "w1", "incoming", some "x", some "read", 5⟩,
         ⟨"15550009999", "w2", "incoming", some "y", some "read", 1⟩,
         ⟨"15551234567", "w3", "outgoing", some "z", some "sent", 2⟩]) :=
  ⟨(history_filtered_sorted "15551234567" _).1,
   (history_filtered_sorted "15551234567" _).2.2.2.1⟩

lemma filter_pn_map (p : String) (h : Row → Row) (s : Store)
    (hh : ∀ r, (h r).phone_number = r.phone_number) :
    (s.map h).filter (fun r => r.phone_number = p) =
      (s.filter (fun r => r.phone_number = p)).map h := by
  induction s with
  | nil => rfl
  | cons a t ih =>
    by_cases hc : a.phone_number = p
    · simp [List.filter_cons, hh, hc, ih]
    · simp [List.filter_cons, hh, hc, ih]

lemma orderedInsert_map (h : Row → Row) (hts : ∀ r, (h r).timestamp = r.timestamp)
    (a : Row) (l : List Row) :
    List.orderedInsert tsLe (h a) (l.map h) = (List.orderedInsert tsLe a l).map h := by
  induction l with
  | nil => rfl
  | cons b t ih =>
    by_cases hc : tsLe a b
    · have hc' : tsLe (h a) (h b) := by
        unfold tsLe at hc ⊢
        rw [hts, hts]
        exact hc
      simp [List.orderedInsert, hc, hc']
    · have hc' : ¬ tsLe (h a) (h b) := by
        unfold tsLe at hc ⊢
        rw [hts, hts]
        exact hc
      simp [List.orderedInsert, hc, hc', ih]

lemma insertionSort_map (h : Row → Row) (hts : ∀ r, (h r).timestamp = r.timestamp)
    (l : List Row) :
    List.insertionSort tsLe (l.map h) = (List.insertionSort tsLe l).map h := by
  induction l with
  | nil => rfl
  | cons a t ih => simp [List.insertionSort, ih, orderedInsert_map h hts]

/-- C10: the history response exposes only `phone_number`, `direction`,
`content` and `timestamp`: rewriting the `wamid` and `status` of every row
arbitrarily leaves the response unchanged, so neither field ever reaches
the caller. -/
theorem history_hides_wamid_status
    (p : String) (s : Store) (f : Row → String) (g : Row → Option String) :
    historyHandler false p (s.map (fun r => { r with wamid := f r, status := g r })) =
      historyHandler false p s := by
  have key : chatHistoryQuery p (s.map (fun r => { r with wamid := f r, status := g r })) =
      chatHistoryQuery p s := by
    unfold chatHistoryQuery
    rw [filter_pn_map p (fun r => { r with wamid := f r, status := g r }) s (fun r => rfl),
      insertionSort_map (fun r => { r with wamid := f r, status := g r }) (fun r => rfl),
      List.map_map]
    rfl
  simp [historyHandler, key]

/-- Witness for C5 at a concrete malformed envelope with the database
failing: the handler still acknowledges with 200. -/
theorem forwarded_always_acks_200_witness :
    (forwardedResponse true 0 ⟨none⟩ []).1 = 200 :=
  forwarded_always_acks_200 true 0 ⟨none⟩ []

/-- Witness for C10: blanking every wamid and status of a two-row store
leaves the history response unchanged. -/
theorem history_hides_wamid_status_witness :
    historyHandler false "15551234567"
      (([⟨"15551234567", "w1", "incoming", some "x", some "read", 5⟩,
         ⟨"15551234567", "w2", "outgoing", some "y", some "sent", 1⟩] : Store).map
        (fun r => { r with wamid := (fun _ => "X") r, status := (fun _ => none) r })) =
      historyHandler false "15551234567"
        [⟨"15551234567", "w1", "incoming", some "x", some "read", 5⟩,
         ⟨"15551234567", "w2", "outgoing", some "y", some "sent", 1⟩] :=
  history_hides_wamid_status "15551234567"
    [⟨"15551234567", "w1", "incoming", some "x", some "read", 5⟩,
     ⟨"15551234567", "w2", "outgoing", some "y", some "sent", 1⟩]
    (fun _ => "X") (fun _ => none)
